import Mathlib

/-!
Shallow embedding of `server.py`, a Flask license server.

Time is modelled as minutes (an `Int`): `datetime` instants become
minutes-since-epoch, `timedelta` values become minute counts
(1 day = 1440 minutes, the `"debug"` duration = 2 minutes).
The SQLite table of `License` rows (with a UNIQUE constraint on
`license_key`) becomes an association list from keys to records;
randomness (`secrets.choice`) and the clock (`datetime.utcnow()`)
become explicit parameters.
-/

namespace Slots8

/-- One row of the `License` table: `expiration` (a naive-UTC instant in
minutes) and the optional `assigned_device`.  The key is the association
list's index, so it is not repeated here. -/
structure License where
  expiration : Int
  assigned_device : Option String
deriving DecidableEq, Repr

/-- The `License` table, keyed by `license_key`. -/
abbrev Store := List (String × License)

/-- Python integer-literal validity for a (sign-stripped) character list:
nonempty, starts and ends with a digit, and `_` appears only between two
digits.  Tracks the previously seen character. -/
def pyDigitsOkAux (prev : Char) : List Char → Bool
  | [] => prev.isDigit
  | c :: rest => (c.isDigit || (c = '_' && prev.isDigit)) && pyDigitsOkAux c rest

/-- Validity of the digit part of a Python integer literal. -/
def pyDigitsOk : List Char → Bool
  | [] => false
  | c :: rest => c.isDigit && pyDigitsOkAux c rest

/-- Numeric value of a list of decimal digits. -/
def pyDigitsVal (cs : List Char) : Nat :=
  cs.foldl (fun n c => 10 * n + (c.toNat - 48)) 0

/-- ASCII whitespace stripped by Python's `int()`. -/
def isPySpace (c : Char) : Bool :=
  c = ' ' || c = '\t' || c = '\n' || c = '\r' || c = '\x0b' || c = '\x0c'

/-- Strip leading and trailing whitespace from a character list. -/
def pyStrip (cs : List Char) : List Char :=
  ((cs.dropWhile isPySpace).reverse.dropWhile isPySpace).reverse

/-- Model of Python's `int(s)` on strings: surrounding whitespace is
stripped, an optional single sign is allowed, then decimal digits with
single underscores between digits; anything else raises `ValueError`,
modelled as `none`. -/
def pyInt (s : String) : Option Int :=
  match pyStrip s.toList with
  | '+' :: rest =>
      if pyDigitsOk rest then some (pyDigitsVal (rest.filter (fun c => c ≠ '_')) : Nat) else none
  | '-' :: rest =>
      if pyDigitsOk rest then some (-(pyDigitsVal (rest.filter (fun c => c ≠ '_')) : Nat)) else none
  | cs =>
      if pyDigitsOk cs then some (pyDigitsVal (cs.filter (fun c => c ≠ '_')) : Nat) else none

/-- `parse_duration` from `server.py`, returning the `timedelta` in
minutes: `"debug"` gives 2 minutes, an `int`-parseable string `N` gives
`N` days, and a `ValueError` falls back to 1 day. -/
def parse_duration (duration_str : String) : Int :=
  if duration_str = "debug" then 2
  else
    match pyInt duration_str with
    | some days => days * 1440
    | none => 1440

/-- The alphabet of `generate_random_key`:
`string.ascii_uppercase + string.digits`. -/
def keyAlphabet : List Char := "ABCDEFGHIJKLMNOPQRSTUVWXYZ0123456789".toList

/-- `generate_random_key` from `server.py` with its default arguments
(`length=16`, `group_size=4`), taking the 16 characters drawn by
`secrets.choice` as an explicit input: groups them into four
hyphen-separated blocks of four. -/
def generate_random_key (raw_key : List Char) : String :=
  String.intercalate "-"
    ((List.range' 0 4 4).map (fun i => String.mk ((raw_key.drop i).take 4)))

/-- Python truthiness test `not x` for an optional string: `None` and the
empty string are falsy. -/
def falsy : Option String → Bool
  | none => true
  | some s => s == ""

/-- A JSON reply from `verify_license` together with its HTTP status
(`jsonify` alone replies 200). -/
structure VerifyResponse where
  valid : Bool
  error : Option String
  status : Nat
deriving DecidableEq, Repr

/-- `License.query.filter_by(license_key=k).first()`. -/
def queryFirst (k : String) (s : Store) : Option License :=
  List.lookup k s

/-- `db.session.delete(license_data)` for the row with key `k` (the
UNIQUE constraint on `license_key` guarantees there is at most one). -/
def deleteKey (k : String) (s : Store) : Store :=
  List.filter (fun p => p.1 != k) s

/-- `license_data.assigned_device = d; db.session.commit()` for the row
with key `k`. -/
def setDevice (k d : String) (s : Store) : Store :=
  List.map (fun p => if p.1 = k then (p.1, { p.2 with assigned_device := some d }) else p) s

/-- The `verify_license` route of `server.py`.  `license_key` and
`device_id` are the optional query parameters, `now` is
`datetime.utcnow()`, and the returned pair is (JSON reply, table after
the request). -/
def verify_license (license_key device_id : Option String) (now : Int) (s : Store) :
    VerifyResponse × Store :=
  if falsy license_key || falsy device_id then
    (⟨false, some "No license key or device ID provided", 400⟩, s)
  else
    let k := license_key.getD ""
    let d := device_id.getD ""
    match queryFirst k s with
    | none => (⟨false, some "License key not found", 200⟩, s)
    | some license_data =>
      if license_data.expiration ≤ now then
        (⟨false, some "License key expired", 200⟩, deleteKey k s)
      else
        match license_data.assigned_device with
        | none => (⟨true, none, 200⟩, setDevice k d s)
        | some dev =>
          if dev = d then (⟨true, none, 200⟩, s)
          else (⟨false, some "License already used on another device", 200⟩, s)

/-- An aware datetime: wall-clock minutes plus the UTC offset of its
timezone, both in minutes. -/
structure AwareDT where
  wall : Int
  offset : Int
deriving DecidableEq, Repr

/-- The instant (in UTC minutes) an aware datetime denotes. -/
def instantOf (t : AwareDT) : Int := t.wall - t.offset

/-- `naive.astimezone(tz)` for a naive datetime: CPython interprets the
naive value in the process's local timezone (offset `localOffset`), then
converts to the target offset. -/
def astimezone (naive localOffset targetOffset : Int) : AwareDT :=
  ⟨naive - localOffset + targetOffset, targetOffset⟩

/-- `ZoneInfo("Asia/Manila")`: fixed offset UTC+8, in minutes. -/
def ph_tz : Int := 480

/-- `db.session.add(License(...)); db.session.commit()`: the UNIQUE
constraint on `license_key` makes the commit raise `IntegrityError` when
the key already exists, modelled as `Except.error`. -/
def createLicense (k : String) (expiration : Int) (s : Store) : Except Unit Store :=
  if (List.lookup k s).isSome then Except.error ()
  else Except.ok (s ++ [(k, ⟨expiration, none⟩)])

/-- The JSON reply of `owner_generate_license`: the key and the rendered
`expires_at` timestamp (an aware datetime, `isoformat()` keeps its
offset explicit). -/
structure IssueResponse where
  license_key : String
  expires_at : AwareDT
deriving DecidableEq, Repr

/-- The `owner_generate_license` route of `server.py`.  `localOffset` is
the UTC offset of the server's local timezone (used by `astimezone` on
the naive expiration), `payloadDuration` the optional `"duration"` field,
`now` is `datetime.utcnow()`, and `newKey` the key drawn by
`generate_random_key`.  An uncaught `IntegrityError` from the commit is
`Except.error`. -/
def owner_generate_license (localOffset : Int) (payloadDuration : Option String)
    (now : Int) (newKey : String) (s : Store) : Except Unit (IssueResponse × Store) :=
  let duration := payloadDuration.getD "1"
  let expiration_utc := now + parse_duration duration
  match createLicense newKey expiration_utc s with
  | Except.error e => Except.error e
  | Except.ok s' =>
      Except.ok (⟨newKey, astimezone expiration_utc localOffset ph_tz⟩, s')

/-- Running a sequence of `verify_license` requests
(key, device, request time) against the table. -/
def runVerifies : List (Option String × Option String × Int) → Store → Store
  | [], s => s
  | c :: cs, s => runVerifies cs (verify_license c.1 c.2.1 c.2.2 s).2

/-! ### Store lemmas -/

theorem lookup_cons (k a : String) (b : License) (t : Store) :
    List.lookup k ((a, b) :: t) = if k = a then some b else List.lookup k t := by
  by_cases h : k = a
  · subst h
    simp [List.lookup]
  · have hk : (k == a) = false := beq_eq_false_iff_ne.mpr h
    simp [List.lookup, hk, h]

theorem lookup_deleteKey_self (k : String) (s : Store) :
    List.lookup k (deleteKey k s) = none := by
  induction s with
  | nil => rfl
  | cons p t ih =>
      obtain ⟨a, b⟩ := p
      by_cases h : a = k
      · subst h
        simpa [deleteKey, List.filter_cons] using ih
      · have hb : (a != k) = true := bne_iff_ne.mpr h
        simp only [deleteKey, List.filter_cons, hb, if_true] at ih ⊢
        rw [lookup_cons, if_neg (fun he => h he.symm)]
        exact ih

theorem lookup_deleteKey_ne (k k' : String) (h : k ≠ k') (s : Store) :
    List.lookup k (deleteKey k' s) = List.lookup k s := by
  induction s with
  | nil => rfl
  | cons p t ih =>
      obtain ⟨a, b⟩ := p
      by_cases hp : a = k'
      · subst hp
        simp only [deleteKey, List.filter_cons, bne_self_eq_false, if_false,
          Bool.false_eq_true] at ih ⊢
        rw [lookup_cons, if_neg h]
        exact ih
      · have hb : (a != k') = true := bne_iff_ne.mpr hp
        simp only [deleteKey, List.filter_cons, hb, if_true] at ih ⊢
        rw [lookup_cons, lookup_cons]
        by_cases hka : k = a <;> simp [hka, ih]

theorem lookup_setDevice_self (k d : String) (s : Store) :
    List.lookup k (setDevice k d s) =
      (List.lookup k s).map (fun lic => { lic with assigned_device := some d }) := by
  induction s with
  | nil => rfl
  | cons p t ih =>
      obtain ⟨a, b⟩ := p
      simp only [setDevice, List.map_cons] at ih ⊢
      by_cases h : a = k
      · subst h
        rw [if_pos rfl, lookup_cons, lookup_cons, if_pos rfl, if_pos rfl]
        rfl
      · rw [if_neg h, lookup_cons, lookup_cons,
          if_neg (fun he => h he.symm), if_neg (fun he => h he.symm)]
        exact ih

theorem lookup_setDevice_ne (k k' d : String) (h : k ≠ k') (s : Store) :
    List.lookup k (setDevice k' d s) = List.lookup k s := by
  induction s with
  | nil => rfl
  | cons p t ih =>
      obtain ⟨a, b⟩ := p
      simp only [setDevice, List.map_cons] at ih ⊢
      by_cases hp : a = k'
      · subst hp
        rw [if_pos rfl, lookup_cons, lookup_cons, if_neg h, if_neg h]
        exact ih
      · rw [if_neg hp, lookup_cons, lookup_cons]
        by_cases hka : k = a <;> simp [hka, ih]

/-! ### Branch characterizations of `verify_license` -/

theorem verify_license_missing (lk did : Option String) (now : Int) (s : Store)
    (h : falsy lk = true ∨ falsy did = true) :
    verify_license lk did now s =
      (⟨false, some "No license key or device ID provided", 400⟩, s) := by
  unfold verify_license
  rcases h with h | h <;> simp [h]

theorem verify_license_present (k d : String) (hk : k ≠ "") (hd : d ≠ "")
    (now : Int) (s : Store) :
    verify_license (some k) (some d) now s =
      match queryFirst k s with
      | none => (⟨false, some "License key not found", 200⟩, s)
      | some license_data =>
        if license_data.expiration ≤ now then
          (⟨false, some "License key expired", 200⟩, deleteKey k s)
        else
          match license_data.assigned_device with
          | none => (⟨true, none, 200⟩, setDevice k d s)
          | some dev =>
            if dev = d then (⟨true, none, 200⟩, s)
            else (⟨false, some "License already used on another device", 200⟩, s) := by
  unfold verify_license
  have h1 : falsy (some k) = false := by simp [falsy]; exact hk
  have h2 : falsy (some d) = false := by simp [falsy]; exact hd
  simp [h1, h2]

theorem verify_license_notFound (k d : String) (hk : k ≠ "") (hd : d ≠ "")
    (now : Int) (s : Store) (h : queryFirst k s = none) :
    verify_license (some k) (some d) now s =
      (⟨false, some "License key not found", 200⟩, s) := by
  rw [verify_license_present k d hk hd now s, h]

theorem verify_license_expired (k d : String) (hk : k ≠ "") (hd : d ≠ "")
    (now : Int) (s : Store) (lic : License) (h : queryFirst k s = some lic)
    (he : lic.expiration ≤ now) :
    verify_license (some k) (some d) now s =
      (⟨false, some "License key expired", 200⟩, deleteKey k s) := by
  rw [verify_license_present k d hk hd now s, h]
  simp [he]

theorem verify_license_bind (k d : String) (hk : k ≠ "") (hd : d ≠ "")
    (now : Int) (s : Store) (lic : License) (h : queryFirst k s = some lic)
    (he : now < lic.expiration) (hu : lic.assigned_device = none) :
    verify_license (some k) (some d) now s = (⟨true, none, 200⟩, setDevice k d s) := by
  rw [verify_license_present k d hk hd now s, h]
  simp [not_le.mpr he, hu]

theorem verify_license_same (k d : String) (hk : k ≠ "") (hd : d ≠ "")
    (now : Int) (s : Store) (lic : License) (h : queryFirst k s = some lic)
    (he : now < lic.expiration) (hb : lic.assigned_device = some d) :
    verify_license (some k) (some d) now s = (⟨true, none, 200⟩, s) := by
  rw [verify_license_present k d hk hd now s, h]
  simp [not_le.mpr he, hb]

theorem verify_license_mismatch (k d dev : String) (hk : k ≠ "") (hd : d ≠ "")
    (now : Int) (s : Store) (lic : License) (h : queryFirst k s = some lic)
    (he : now < lic.expiration) (hb : lic.assigned_device = some dev) (hne : dev ≠ d) :
    verify_license (some k) (some d) now s =
      (⟨false, some "License already used on another device", 200⟩, s) := by
  rw [verify_license_present k d hk hd now s, h]
  simp [not_le.mpr he, hb, hne]

/-- Any single `verify_license` request either leaves the table alone,
deletes one key, or binds a previously unbound record. -/
theorem verify_store_cases (lk did : Option String) (now : Int) (s : Store) :
    (verify_license lk did now s).2 = s ∨
    (∃ k, (verify_license lk did now s).2 = deleteKey k s) ∨
    (∃ k d lic, queryFirst k s = some lic ∧ lic.assigned_device = none ∧
      (verify_license lk did now s).2 = setDevice k d s) := by
  unfold verify_license
  by_cases hf : (falsy lk || falsy did) = true
  · simp [hf]
  · simp only [hf, if_false, Bool.false_eq_true]
    cases hq : queryFirst (lk.getD "") s with
    | none => simp
    | some lic =>
        simp only
        by_cases hexp : lic.expiration ≤ now
        · simp only [hexp, if_true]
          exact Or.inr (Or.inl ⟨lk.getD "", rfl⟩)
        · simp only [hexp, if_false]
          cases hdev : lic.assigned_device with
          | none =>
              exact Or.inr (Or.inr ⟨lk.getD "", did.getD "", lic, hq, hdev, rfl⟩)
          | some dev =>
              by_cases hsame : dev = did.getD "" <;> simp [hsame]

/-- A key absent from the table stays absent across any
`verify_license` request. -/
theorem notFound_preserved_step (k : String) (s : Store)
    (h : List.lookup k s = none) (lk did : Option String) (now : Int) :
    List.lookup k (verify_license lk did now s).2 = none := by
  rcases verify_store_cases lk did now s with hs | ⟨k', hs⟩ | ⟨k', d', lic, _, _, hs⟩
  · rw [hs]; exact h
  · rw [hs]
    by_cases hk : k = k'
    · subst hk; exact lookup_deleteKey_self k s
    · rw [lookup_deleteKey_ne k k' hk s]; exact h
  · rw [hs]
    by_cases hk : k = k'
    · subst hk; rw [lookup_setDevice_self, h]; rfl
    · rw [lookup_setDevice_ne k k' d' hk s]; exact h

/-- A key absent from the table stays absent across any sequence of
`verify_license` requests. -/
theorem notFound_preserved_runs (k : String)
    (calls : List (Option String × Option String × Int)) (s : Store)
    (h : List.lookup k s = none) :
    List.lookup k (runVerifies calls s) = none := by
  induction calls generalizing s with
  | nil => exact h
  | cons c cs ih =>
      exact ih _ (notFound_preserved_step k s h c.1 c.2.1 c.2.2)

/-- Once a record is bound to a device, any single `verify_license`
request either deletes the record (expiry) or leaves its binding
untouched. -/
theorem bound_preserved_step (k dev : String) (lic : License) (s : Store)
    (hfound : List.lookup k s = some lic) (hdev : lic.assigned_device = some dev)
    (lk did : Option String) (now : Int) :
    List.lookup k (verify_license lk did now s).2 = none ∨
    ∃ lic', List.lookup k (verify_license lk did now s).2 = some lic' ∧
      lic'.assigned_device = some dev := by
  rcases verify_store_cases lk did now s with hs | ⟨k', hs⟩ | ⟨k', d', lic2, hq, hu, hs⟩
  · exact Or.inr ⟨lic, by rw [hs]; exact hfound, hdev⟩
  · rw [hs]
    by_cases hk : k = k'
    · subst hk; exact Or.inl (lookup_deleteKey_self k s)
    · rw [lookup_deleteKey_ne k k' hk s]
      exact Or.inr ⟨lic, hfound, hdev⟩
  · rw [hs]
    by_cases hk : k = k'
    · subst hk
      unfold queryFirst at hq
      rw [hfound] at hq
      cases hq
      rw [hdev] at hu
      cases hu
    · rw [lookup_setDevice_ne k k' d' hk s]
      exact Or.inr ⟨lic, hfound, hdev⟩

/-- Once a record is bound to a device, any sequence of `verify_license`
requests either deletes the record or leaves its binding untouched; it
is never rebound to a different device. -/
theorem bound_preserved_runs (k dev : String)
    (calls : List (Option String × Option String × Int)) (s : Store) (lic : License)
    (hfound : List.lookup k s = some lic) (hdev : lic.assigned_device = some dev) :
    List.lookup k (runVerifies calls s) = none ∨
    ∃ lic', List.lookup k (runVerifies calls s) = some lic' ∧
      lic'.assigned_device = some dev := by
  induction calls generalizing s lic with
  | nil => exact Or.inr ⟨lic, hfound, hdev⟩
  | cons c cs ih =>
      rcases bound_preserved_step k dev lic s hfound hdev c.1 c.2.1 c.2.2 with h | ⟨lic', h1, h2⟩
      · exact Or.inl (notFound_preserved_runs k cs _ h)
      · exact ih _ lic' h1 h2

/-! ### Claim C1 -/

/-- The transition table of `verify(key, deviceId)` with both parameters
present: not-found, expired (delete), first bind, same device, other
device. -/
def VerifyCaseSpec (k d : String) (now : Int) (s : Store) : Prop :=
  (queryFirst k s = none →
    verify_license (some k) (some d) now s =
      (⟨false, some "License key not found", 200⟩, s)) ∧
  (∀ lic, queryFirst k s = some lic →
    (lic.expiration ≤ now →
      verify_license (some k) (some d) now s =
        (⟨false, some "License key expired", 200⟩, deleteKey k s) ∧
      queryFirst k (verify_license (some k) (some d) now s).2 = none) ∧
    (now < lic.expiration →
      (lic.assigned_device = none →
        verify_license (some k) (some d) now s = (⟨true, none, 200⟩, setDevice k d s) ∧
        queryFirst k (verify_license (some k) (some d) now s).2 =
          some { lic with assigned_device := some d }) ∧
      (lic.assigned_device = some d →
        verify_license (some k) (some d) now s = (⟨true, none, 200⟩, s)) ∧
      (∀ dev, lic.assigned_device = some dev → dev ≠ d →
        verify_license (some k) (some d) now s =
          (⟨false, some "License already used on another device", 200⟩, s))))

/-- C1: for every `verify(key, deviceId)` call with both parameters
present, the response and state change follow the five-way case split:
key not in store → invalid/not-found, no change; `now >= expiration` →
record deleted, invalid/expired; `assignedDevice` unset → set to
`deviceId`, valid; `assignedDevice = deviceId` → valid, no change;
otherwise invalid/device-mismatch, no change. -/
theorem C1_verify_transitions (k d : String) (hk : k ≠ "") (hd : d ≠ "")
    (now : Int) (s : Store) : VerifyCaseSpec k d now s := by
  refine ⟨fun h => verify_license_notFound k d hk hd now s h, fun lic hq => ⟨fun he => ?_, fun he => ⟨fun hu => ?_, fun hb => ?_, fun dev hb hne => ?_⟩⟩⟩
  · refine ⟨verify_license_expired k d hk hd now s lic hq he, ?_⟩
    rw [verify_license_expired k d hk hd now s lic hq he]
    exact lookup_deleteKey_self k s
  · refine ⟨verify_license_bind k d hk hd now s lic hq he hu, ?_⟩
    rw [verify_license_bind k d hk hd now s lic hq he hu]
    show List.lookup k (setDevice k d s) = _
    rw [lookup_setDevice_self]
    show (List.lookup k s).map _ = _
    rw [show List.lookup k s = some lic from hq]
    rfl
  · exact verify_license_same k d hk hd now s lic hq he hb
  · exact verify_license_mismatch k d dev hk hd now s lic hq he hb hne

/-- Witness for C1 at concrete inputs. -/
theorem C1_verify_transitions_witness :
    ("K1" ≠ "" ∧ "D1" ≠ "") ∧ VerifyCaseSpec "K1" "D1" 0 [] :=
  ⟨by decide, C1_verify_transitions "K1" "D1" (by decide) (by decide) 0 []⟩

/-! ### Claim C2 -/

/-- Once any store shows key `k` bound to some device, no sequence of
`verify_license` requests ever rebinds it to a different device: the
record is either gone or still bound to the same device. -/
def BoundOnceInvariant (k : String) : Prop :=
  ∀ (s : Store) (lic : License) (dev : String),
    List.lookup k s = some lic → lic.assigned_device = some dev →
    ∀ calls : List (Option String × Option String × Int),
      List.lookup k (runVerifies calls s) = none ∨
      ∃ lic', List.lookup k (runVerifies calls s) = some lic' ∧
        lic'.assigned_device = some dev

/-- The concrete three-call scenario: `verify(k, A)` twice (both valid,
bound to `A` only), then `verify(k, B)` (device mismatch, binding and
store unchanged). -/
def BindScenarioSpec (k A B : String) (t1 t2 t3 : Int) (s : Store) (lic : License) : Prop :=
  let p1 := verify_license (some k) (some A) t1 s
  let p2 := verify_license (some k) (some A) t2 p1.2
  let p3 := verify_license (some k) (some B) t3 p2.2
  p1.1 = ⟨true, none, 200⟩ ∧
  p2.1 = ⟨true, none, 200⟩ ∧
  queryFirst k p2.2 = some { lic with assigned_device := some A } ∧
  p3.1 = ⟨false, some "License already used on another device", 200⟩ ∧
  p3.2 = p2.2 ∧
  queryFirst k p3.2 = some { lic with assigned_device := some A }

/-- C2: `assignedDevice` goes from unset to bound at most once and never
changes to a different value; `verify(key, "device-A")` twice returns
valid twice with the license bound to `device-A` only, and a later
`verify(key, "device-B")` returns invalid with the device-mismatch cause
while the stored binding stays `device-A`. -/
theorem C2_bind_once (k A B : String) (hk : k ≠ "") (hA : A ≠ "") (hB : B ≠ "")
    (hAB : A ≠ B) (s : Store) (lic : License)
    (hfound : queryFirst k s = some lic) (hunbound : lic.assigned_device = none)
    (t1 t2 t3 : Int) (h1 : t1 < lic.expiration) (h2 : t2 < lic.expiration)
    (h3 : t3 < lic.expiration) :
    BoundOnceInvariant k ∧ BindScenarioSpec k A B t1 t2 t3 s lic := by
  constructor
  · intro s0 lic0 dev0 hf0 hd0 calls
    exact bound_preserved_runs k dev0 calls s0 lic0 hf0 hd0
  · have e1 : verify_license (some k) (some A) t1 s = (⟨true, none, 200⟩, setDevice k A s) :=
      verify_license_bind k A hk hA t1 s lic hfound h1 hunbound
    have hq1 : queryFirst k (setDevice k A s) = some { lic with assigned_device := some A } := by
      show List.lookup k (setDevice k A s) = _
      rw [lookup_setDevice_self]
      rw [show List.lookup k s = some lic from hfound]
      rfl
    have e2 : verify_license (some k) (some A) t2 (setDevice k A s) =
        (⟨true, none, 200⟩, setDevice k A s) :=
      verify_license_same k A hk hA t2 (setDevice k A s) _ hq1 h2 rfl
    have e3 : verify_license (some k) (some B) t3 (setDevice k A s) =
        (⟨false, some "License already used on another device", 200⟩, setDevice k A s) :=
      verify_license_mismatch k B A hk hB t3 (setDevice k A s) _ hq1 h3 rfl hAB
    show BindScenarioSpec k A B t1 t2 t3 s lic
    simp [BindScenarioSpec, e1, e2, e3, hq1]

/-- Witness for C2 at concrete inputs. -/
theorem C2_bind_once_witness :
    ("K2" ≠ "" ∧ "A" ≠ "" ∧ "B" ≠ "" ∧ "A" ≠ "B" ∧
      queryFirst "K2" [("K2", ⟨100, none⟩)] = some ⟨100, none⟩ ∧
      (License.mk 100 none).assigned_device = none ∧
      (0 : Int) < (License.mk 100 none).expiration) ∧
    (BoundOnceInvariant "K2" ∧
      BindScenarioSpec "K2" "A" "B" 0 0 0 [("K2", ⟨100, none⟩)] ⟨100, none⟩) :=
  ⟨by decide,
   C2_bind_once "K2" "A" "B" (by decide) (by decide) (by decide) (by decide)
     [("K2", ⟨100, none⟩)] ⟨100, none⟩ (by decide) (by decide)
     0 0 0 (by decide) (by decide) (by decide)⟩

/-! ### Claim C3 -/

/-- C3: a license past its expiration is never reported valid: the first
verify that observes `now >= expiration` responds invalid with the
expired cause and deletes the record, and every later verify on the key
— after any interleaved requests — responds invalid with the not-found
cause.  Expired/unknown never transitions back to valid. -/
theorem C3_expiry_terminal (k d : String) (hk : k ≠ "") (hd : d ≠ "")
    (now : Int) (s : Store) (lic : License) (hq : queryFirst k s = some lic)
    (he : lic.expiration ≤ now) :
    verify_license (some k) (some d) now s =
      (⟨false, some "License key expired", 200⟩, deleteKey k s) ∧
    queryFirst k (verify_license (some k) (some d) now s).2 = none ∧
    (∀ (calls : List (Option String × Option String × Int)) (d' : String) (now' : Int),
      d' ≠ "" →
      verify_license (some k) (some d') now'
          (runVerifies calls (verify_license (some k) (some d) now s).2) =
        (⟨false, some "License key not found", 200⟩,
          runVerifies calls (verify_license (some k) (some d) now s).2)) := by
  have e : verify_license (some k) (some d) now s =
      (⟨false, some "License key expired", 200⟩, deleteKey k s) :=
    verify_license_expired k d hk hd now s lic hq he
  refine ⟨e, ?_, ?_⟩
  · rw [e]
    exact lookup_deleteKey_self k s
  · intro calls d' now' hd'
    have hgone : List.lookup k (runVerifies calls (verify_license (some k) (some d) now s).2)
        = none := by
      rw [e]
      exact notFound_preserved_runs k calls (deleteKey k s) (lookup_deleteKey_self k s)
    exact verify_license_notFound k d' hk hd' now' _ hgone

/-- Witness for C3 at concrete inputs. -/
theorem C3_expiry_terminal_witness :
    ("K3" ≠ "" ∧ "D" ≠ "" ∧
      queryFirst "K3" [("K3", ⟨5, none⟩)] = some ⟨5, none⟩ ∧
      (License.mk 5 none).expiration ≤ (7 : Int)) ∧
    (verify_license (some "K3") (some "D") 7 [("K3", ⟨5, none⟩)] =
        (⟨false, some "License key expired", 200⟩, deleteKey "K3" [("K3", ⟨5, none⟩)]) ∧
      queryFirst "K3" (verify_license (some "K3") (some "D") 7 [("K3", ⟨5, none⟩)]).2 = none ∧
      (∀ (calls : List (Option String × Option String × Int)) (d' : String) (now' : Int),
        d' ≠ "" →
        verify_license (some "K3") (some d') now'
            (runVerifies calls (verify_license (some "K3") (some "D") 7 [("K3", ⟨5, none⟩)]).2) =
          (⟨false, some "License key not found", 200⟩,
            runVerifies calls
              (verify_license (some "K3") (some "D") 7 [("K3", ⟨5, none⟩)]).2))) :=
  ⟨by decide,
   C3_expiry_terminal "K3" "D" (by decide) (by decide) 7 [("K3", ⟨5, none⟩)] ⟨5, none⟩
     (by decide) (by decide)⟩

/-! ### Claim C4 -/

/-- C4 counterexample: `"-3"` is neither `"debug"` nor a string of a
non-negative integer, so under the claim it would fall to the 1-day
default (1440 minutes); but `int("-3")` succeeds and `parse_duration`
returns −3 days (−4320 minutes). -/
theorem C4_counterexample : parse_duration "-3" = -4320 ∧ (-4320 : Int) ≠ 1440 := by
  decide

/-- C4 (amended): the resolver is total: `"debug"` ↦ 2 minutes, any
string `int()` parses as an integer `N` — negative included — ↦ `N`
days, any unparseable string ↦ the 1-day default, and a missing
duration defaults to the string `"1"`, hence 1 day. -/
theorem C4_duration_total :
    parse_duration "debug" = 2 ∧
    (∀ str n, str ≠ "debug" → pyInt str = some n → parse_duration str = n * 1440) ∧
    (∀ str, str ≠ "debug" → pyInt str = none → parse_duration str = 1440) ∧
    parse_duration ((none : Option String).getD "1") = 1440 := by
  refine ⟨by decide, ?_, ?_, by decide⟩
  · intro str n hne hp
    unfold parse_duration
    rw [if_neg hne, hp]
  · intro str hne hp
    unfold parse_duration
    rw [if_neg hne, hp]

/-- Witness for C4's amended statement at concrete inputs. -/
theorem C4_duration_total_witness :
    ("5" ≠ "debug" ∧ pyInt "5" = some 5) ∧ parse_duration "5" = 5 * 1440 :=
  ⟨by decide, C4_duration_total.2.1 "5" 5 (by decide) (by decide)⟩

/-! ### Claim C5 -/

/-- C5: an issuance whose freshly generated key collides with a stored
key.  The store's UNIQUE column does reject the duplicate, but the route
does not regenerate: the uncaught `IntegrityError` (`Except.error`)
aborts the request instead of a retry with a new key. -/
theorem C5_collision_fails :
    owner_generate_license 0 (some "1") 0 "AAAA-AAAA-AAAA-AAAA"
        [("AAAA-AAAA-AAAA-AAAA", ⟨99999, none⟩)] = Except.error () := by
  rfl

/-! ### Claim C6 -/

/-- The behaviour of `verify` on a missing or empty parameter: the fixed
400 client-error response, the same no matter what the store holds (the
store is never consulted), never equal to the not-found response. -/
def ClientErrorSpec (lk did : Option String) (now : Int) (s : Store) : Prop :=
  verify_license lk did now s =
    (⟨false, some "No license key or device ID provided", 400⟩, s) ∧
  (∀ s' : Store, verify_license lk did now s' =
    (⟨false, some "No license key or device ID provided", 400⟩, s')) ∧
  (⟨false, some "No license key or device ID provided", 400⟩ : VerifyResponse) ≠
    ⟨false, some "License key not found", 200⟩

/-- C6: whenever `license_key` or `device_id` is missing or empty, the
response is the 400 client error — distinct from the not-found business
response — the store is left unchanged and is not consulted (the reply
does not depend on it). -/
theorem C6_missing_params (lk did : Option String)
    (h : falsy lk = true ∨ falsy did = true) (now : Int) (s : Store) :
    ClientErrorSpec lk did now s :=
  ⟨verify_license_missing lk did now s h,
   fun s' => verify_license_missing lk did now s' h,
   by decide⟩

/-- Witness for C6 at concrete inputs. -/
theorem C6_missing_params_witness :
    (falsy (some "K6") = true ∨ falsy (none : Option String) = true) ∧
    ClientErrorSpec (some "K6") none 0 [("K6", ⟨50, none⟩)] :=
  ⟨Or.inr (by decide),
   C6_missing_params (some "K6") none (Or.inr (by decide)) 0 [("K6", ⟨50, none⟩)]⟩

/-! ### Claim C7 -/

/-- The regular expression
`^[A-Z0-9]\x7b4\x7d-[A-Z0-9]\x7b4\x7d-[A-Z0-9]\x7b4\x7d-[A-Z0-9]\x7b4\x7d$`
as a decidable predicate: 19 characters, `-` at positions 4, 9 and 14,
an uppercase-alphanumeric character everywhere else. -/
def matchesKeyFormat (str : String) : Bool :=
  let cs := str.toList
  cs.length == 19 &&
  (List.range 19).all (fun i =>
    if i % 5 == 4 then cs.getD i ' ' == '-'
    else keyAlphabet.contains (cs.getD i ' '))

/-- C7: every key produced by the generator — 16 draws from the
36-symbol uppercase-alphanumeric alphabet — matches the grouped format
`GGGG-GGGG-GGGG-GGGG`. -/
theorem C7_key_format (raw : List Char) (hlen : raw.length = 16)
    (halpha : ∀ c ∈ raw, c ∈ keyAlphabet) :
    matchesKeyFormat (generate_random_key raw) = true := by
  rcases raw with _ | ⟨c0, raw⟩; · simp at hlen
  rcases raw with _ | ⟨c1, raw⟩; · simp at hlen
  rcases raw with _ | ⟨c2, raw⟩; · simp at hlen
  rcases raw with _ | ⟨c3, raw⟩; · simp at hlen
  rcases raw with _ | ⟨c4, raw⟩; · simp at hlen
  rcases raw with _ | ⟨c5, raw⟩; · simp at hlen
  rcases raw with _ | ⟨c6, raw⟩; · simp at hlen
  rcases raw with _ | ⟨c7, raw⟩; · simp at hlen
  rcases raw with _ | ⟨c8, raw⟩; · simp at hlen
  rcases raw with _ | ⟨c9, raw⟩; · simp at hlen
  rcases raw with _ | ⟨c10, raw⟩; · simp at hlen
  rcases raw with _ | ⟨c11, raw⟩; · simp at hlen
  rcases raw with _ | ⟨c12, raw⟩; · simp at hlen
  rcases raw with _ | ⟨c13, raw⟩; · simp at hlen
  rcases raw with _ | ⟨c14, raw⟩; · simp at hlen
  rcases raw with _ | ⟨c15, raw⟩; · simp at hlen
  rcases raw with _ | ⟨c16, raw⟩
  swap; · simp at hlen
  have hkey : generate_random_key
        [c0, c1, c2, c3, c4, c5, c6, c7, c8, c9, c10, c11, c12, c13, c14, c15] =
      ⟨[c0, c1, c2, c3, '-', c4, c5, c6, c7, '-', c8, c9, c10, c11, '-',
        c12, c13, c14, c15]⟩ := rfl
  rw [hkey]
  simp only [List.forall_mem_cons] at halpha
  obtain ⟨m0, m1, m2, m3, m4, m5, m6, m7, m8, m9, m10, m11, m12, m13, m14, m15, -⟩ := halpha
  simp [matchesKeyFormat]
  intro x hx
  interval_cases x <;> simp_all

/-- Witness for C7 at a concrete draw. -/
theorem C7_key_format_witness :
    ("ABCDEFGH01234567".toList.length = 16 ∧
      ∀ c ∈ "ABCDEFGH01234567".toList, c ∈ keyAlphabet) ∧
    matchesKeyFormat (generate_random_key "ABCDEFGH01234567".toList) = true :=
  ⟨by decide, C7_key_format "ABCDEFGH01234567".toList (by decide) (by decide)⟩

/-! ### Claim C8 -/

/-- C8: `expiration_utc` is a naive datetime (`datetime.utcnow()`), and
CPython's `astimezone` interprets a naive datetime in the process's
LOCAL timezone before converting — the route's own comment says it
converts from UTC.  With the server clock at UTC+1 (`localOffset = 60`),
issuing a 1-day license at `now = 0` stores expiration 1440 (UTC) but
renders an `expires_at` (offset +08:00) denoting instant 1380: not the
same instant.  They agree exactly when the local timezone is UTC. -/
theorem C8_expires_at_shifted :
    owner_generate_license 60 (some "1") 0 "K8" [] =
      Except.ok (⟨"K8", ⟨1860, 480⟩⟩, [("K8", ⟨1440, none⟩)]) ∧
    instantOf ⟨1860, 480⟩ = 1380 ∧ (1380 : Int) ≠ 1440 ∧
    (∀ e : Int, instantOf (astimezone e 0 ph_tz) = e) := by
  refine ⟨by rfl, by decide, by decide, fun e => ?_⟩
  show e - 0 + ph_tz - ph_tz = e
  ring

/-! ### Claim C9 -/

/-- C9: `verify` replies 400 exactly in the missing-or-empty-parameter
case; every other outcome — including the three business-invalid ones —
is replied with the `jsonify` default 200; and the `error` field is
present exactly when `valid` is false. -/
theorem C9_status_discipline (lk did : Option String) (now : Int) (s : Store) :
    ((verify_license lk did now s).1.status = 400 ↔ (falsy lk || falsy did) = true) ∧
    ((verify_license lk did now s).1.status = 400 ∨
      (verify_license lk did now s).1.status = 200) ∧
    ((verify_license lk did now s).1.error.isSome = true ↔
      (verify_license lk did now s).1.valid = false) := by
  unfold verify_license
  by_cases hf : (falsy lk || falsy did) = true
  · simp [hf]
  · rw [if_neg hf]
    cases hq : queryFirst (lk.getD "") s with
    | none => simp [hq, hf]
    | some lic =>
        by_cases hexp : lic.expiration ≤ now
        · simp [hq, hexp, hf]
        · cases hdev : lic.assigned_device with
          | none => simp [hq, hexp, hdev, hf]
          | some dev =>
              by_cases hs : dev = did.getD "" <;> simp [hq, hexp, hdev, hs, hf]

/-! ### Claim C10 -/

theorem lookup_append_right (k : String) (lic : License) (s : Store)
    (h : List.lookup k s = none) : List.lookup k (s ++ [(k, lic)]) = some lic := by
  induction s with
  | nil => simp [lookup_cons]
  | cons p t ih =>
      obtain ⟨a, b⟩ := p
      rw [lookup_cons] at h
      by_cases hka : k = a
      · simp [hka] at h
      · rw [if_neg hka] at h
        rw [List.cons_append, lookup_cons, if_neg hka]
        exact ih h

/-- C10: a duration string parsing as a negative integer `-N` yields a
duration of `-N` days; issuing with it stores (and returns) an
expiration `N` days before issuance time, and the first verify that
looks the key up — at any time from issuance on — reports it expired
and deletes it. -/
theorem C10_negative_duration (n : Nat) (hn : 1 ≤ n) (str : String)
    (hstr : pyInt str = some (-(n : Int)))
    (k d : String) (hk : k ≠ "") (hd : d ≠ "")
    (now tv : Int) (htv : now ≤ tv) (localOffset : Int)
    (s : Store) (hfree : List.lookup k s = none) :
    parse_duration str = -(n : Int) * 1440 ∧
    owner_generate_license localOffset (some str) now k s =
      Except.ok (⟨k, astimezone (now + -(n : Int) * 1440) localOffset ph_tz⟩,
        s ++ [(k, ⟨now + -(n : Int) * 1440, none⟩)]) ∧
    queryFirst k (s ++ [(k, ⟨now + -(n : Int) * 1440, none⟩)]) =
      some ⟨now + -(n : Int) * 1440, none⟩ ∧
    verify_license (some k) (some d) tv (s ++ [(k, ⟨now + -(n : Int) * 1440, none⟩)]) =
      (⟨false, some "License key expired", 200⟩,
        deleteKey k (s ++ [(k, ⟨now + -(n : Int) * 1440, none⟩)])) ∧
    List.lookup k (verify_license (some k) (some d) tv
        (s ++ [(k, ⟨now + -(n : Int) * 1440, none⟩)])).2 = none := by
  have hne : str ≠ "debug" := by
    intro he
    rw [he] at hstr
    have hdbg : pyInt "debug" = none := by decide
    rw [hdbg] at hstr
    cases hstr
  have hpd : parse_duration str = -(n : Int) * 1440 := by
    unfold parse_duration
    rw [if_neg hne, hstr]
  have hlq : queryFirst k (s ++ [(k, ⟨now + -(n : Int) * 1440, none⟩)]) =
      some ⟨now + -(n : Int) * 1440, none⟩ :=
    lookup_append_right k _ s hfree
  have hexp : (License.mk (now + -(n : Int) * 1440) none).expiration ≤ tv := by
    show now + -(n : Int) * 1440 ≤ tv
    omega
  have hver := verify_license_expired k d hk hd tv _ _ hlq hexp
  refine ⟨hpd, ?_, hlq, hver, ?_⟩
  · unfold owner_generate_license createLicense
    simp [hfree, hpd]
  · rw [hver]
    exact lookup_deleteKey_self k _

/-- Witness for C10 at concrete inputs. -/
theorem C10_negative_duration_witness :
    (1 ≤ (1 : Nat) ∧ pyInt "-1" = some (-((1 : Nat) : Int)) ∧
      "KX" ≠ "" ∧ "D" ≠ "" ∧ (0 : Int) ≤ 0 ∧
      List.lookup "KX" ([] : Store) = none) ∧
    (parse_duration "-1" = -((1 : Nat) : Int) * 1440 ∧
      owner_generate_license 0 (some "-1") 0 "KX" [] =
        Except.ok
          (⟨"KX", astimezone (0 + -((1 : Nat) : Int) * 1440) 0 ph_tz⟩,
            [] ++ [("KX", ⟨0 + -((1 : Nat) : Int) * 1440, none⟩)]) ∧
      queryFirst "KX" ([] ++ [("KX", ⟨0 + -((1 : Nat) : Int) * 1440, none⟩)]) =
        some ⟨0 + -((1 : Nat) : Int) * 1440, none⟩ ∧
      verify_license (some "KX") (some "D") 0
          ([] ++ [("KX", ⟨0 + -((1 : Nat) : Int) * 1440, none⟩)]) =
        (⟨false, some "License key expired", 200⟩,
          deleteKey "KX" ([] ++ [("KX", ⟨0 + -((1 : Nat) : Int) * 1440, none⟩)])) ∧
      List.lookup "KX" (verify_license (some "KX") (some "D") 0
          ([] ++ [("KX", ⟨0 + -((1 : Nat) : Int) * 1440, none⟩)])).2 = none) :=
  ⟨⟨by decide, by decide, by decide, by decide, by decide, by decide⟩,
   C10_negative_duration 1 (by decide) "-1" (by decide) "KX" "D" (by decide) (by decide)
     0 0 (by decide) 0 [] (by decide)⟩

end Slots8
